import Mathlib

set_option maxRecDepth 100000

/-!
Formal model of the vote anonymity and duplicate-prevention core of the
Ballot-system repository (FastAPI + SQLAlchemy voting platform).

The definitions below are a shallow embedding of the Python sources:

* `app/core/security.py`   — HMAC-SHA256 vote-token derivation and the
  unkeyed SHA-256 digest applied before storage;
* `app/models/*.py`        — the persisted entities (users, elections,
  candidates, votes) together with the storage-level uniqueness
  constraint on `(election_id, hashed_voter_token)`;
* `app/repositories/*.py`  — the data-access functions;
* `app/services/vote_service.py` and `app/services/election_service.py`
  — the business-logic operations `cast_vote`, `check_vote_status`,
  `get_results`, `activate_election`, `close_election`,
  `update_election`.

Machine words are modelled as `Nat` truncated with `% 2 ^ 32` where the
source's 32-bit arithmetic overflows.  Python `raise HTTPException`
control flow is modelled with `Except`: each service operation returns
its result (or error) together with the resulting store.
-/

/-! ## SHA-256 (models Python `hashlib.sha256`)

Bytes are `Nat` values below 256, words are `Nat` values below `2 ^ 32`.
The implementation follows FIPS 180-4 exactly; a test-vector theorem at
the end of this section checks it against the published digests. -/

/-- Truncation to a 32-bit word. -/
def w32 (x : Nat) : Nat := x % 4294967296

/-- Right rotation of a 32-bit word by `n` bits. -/
def rotr32 (n x : Nat) : Nat := w32 ((x >>> n) ||| (x <<< (32 - n)))

/-- The eight working registers of the SHA-256 compression function. -/
structure Hash8 where
  a : Nat
  b : Nat
  c : Nat
  d : Nat
  e : Nat
  f : Nat
  g : Nat
  h : Nat
deriving DecidableEq, Repr

/-- The SHA-256 round constants. -/
def sha256K : Array Nat := #[
  1116352408, 1899447441, 3049323471, 3921009573, 961987163,
  1508970993, 2453635748, 2870763221, 3624381080, 310598401,
  607225278, 1426881987, 1925078388, 2162078206, 2614888103,
  3248222580, 3835390401, 4022224774, 264347078, 604807628,
  770255983, 1249150122, 1555081692, 1996064986, 2554220882,
  2821834349, 2952996808, 3210313671, 3336571891, 3584528711,
  113926993, 338241895, 666307205, 773529912, 1294757372,
  1396182291, 1695183700, 1986661051, 2177026350, 2456956037,
  2730485921, 2820302411, 3259730800, 3345764771, 3516065817,
  3600352804, 4094571909, 275423344, 430227734, 506948616,
  659060556, 883997877, 958139571, 1322822218, 1537002063,
  1747873779, 1955562222, 2024104815, 2227730452, 2361852424,
  2428436474, 2756734187, 3204031479, 3329325298]

/-- The SHA-256 initial hash value. -/
def sha256Init : Hash8 :=
  ⟨1779033703, 3144134277, 1013904242, 2773480762,
   1359893119, 2600822924, 528734635, 1541459225⟩

/-- Extends the sixteen words of one block to the 64-entry message schedule. -/
def msgSchedule (block : Array Nat) : Array Nat :=
  (List.range 48).foldl
    (fun w i =>
      let t := i + 16
      let x15 := w.getD (t - 15) 0
      let x2 := w.getD (t - 2) 0
      let s0 := rotr32 7 x15 ^^^ rotr32 18 x15 ^^^ (x15 >>> 3)
      let s1 := rotr32 17 x2 ^^^ rotr32 19 x2 ^^^ (x2 >>> 10)
      w.push (w32 (w.getD (t - 16) 0 + s0 + w.getD (t - 7) 0 + s1)))
    block

/-- The SHA-256 compression function applied to one 16-word block. -/
def compressBlock (st : Hash8) (block : Array Nat) : Hash8 :=
  let w := msgSchedule block
  let r := (List.range 64).foldl
    (fun (s : Hash8) i =>
      let s1 := rotr32 6 s.e ^^^ rotr32 11 s.e ^^^ rotr32 25 s.e
      let ch := (s.e &&& s.f) ^^^ ((0xffffffff ^^^ s.e) &&& s.g)
      let t1 := w32 (s.h + s1 + ch + sha256K.getD i 0 + w.getD i 0)
      let s0 := rotr32 2 s.a ^^^ rotr32 13 s.a ^^^ rotr32 22 s.a
      let mj := (s.a &&& s.b) ^^^ (s.a &&& s.c) ^^^ (s.b &&& s.c)
      let t2 := w32 (s0 + mj)
      ⟨w32 (t1 + t2), s.a, s.b, s.c, w32 (s.d + t1), s.e, s.f, s.g⟩)
    st
  ⟨w32 (st.a + r.a), w32 (st.b + r.b), w32 (st.c + r.c), w32 (st.d + r.d),
   w32 (st.e + r.e), w32 (st.f + r.f), w32 (st.g + r.g), w32 (st.h + r.h)⟩

/-- Packs a byte list into big-endian 32-bit words (groups of four bytes). -/
def bytesToWords : List Nat → List Nat
  | b0 :: b1 :: b2 :: b3 :: rest => (((b0 * 256 + b1) * 256 + b2) * 256 + b3) :: bytesToWords rest
  | _ => []

/-- Big-endian byte serialization of a 32-bit word. -/
def be32 (x : Nat) : List Nat := [x / 16777216 % 256, x / 65536 % 256, x / 256 % 256, x % 256]

/-- Big-endian byte serialization of a 64-bit length field. -/
def be64 (x : Nat) : List Nat :=
  [x / 72057594037927936 % 256, x / 281474976710656 % 256, x / 1099511627776 % 256,
   x / 4294967296 % 256, x / 16777216 % 256, x / 65536 % 256, x / 256 % 256, x % 256]

/-- SHA-256 padding: a `0x80` byte, zeros up to 56 mod 64, and the bit length. -/
def padMessage (msg : List Nat) : List Nat :=
  msg ++ 0x80 :: List.replicate ((119 - msg.length % 64) % 64) 0 ++ be64 (8 * msg.length)

/-- Splits a padded message into 64-byte chunks. -/
def chunks64 (bs : List Nat) : List (List Nat) :=
  (List.range ((bs.length + 63) / 64)).map (fun i => (bs.drop (64 * i)).take 64)

/-- SHA-256 of a byte list, as a 32-byte list. -/
def sha256Bytes (msg : List Nat) : List Nat :=
  let final := (chunks64 (padMessage msg)).foldl
    (fun st chunk => compressBlock st (bytesToWords chunk).toArray) sha256Init
  be32 final.a ++ be32 final.b ++ be32 final.c ++ be32 final.d ++
    be32 final.e ++ be32 final.f ++ be32 final.g ++ be32 final.h

/-- Lower-case hex digit for a value below 16. -/
def hexDigitChar (n : Nat) : Char := if n < 10 then Char.ofNat (48 + n) else Char.ofNat (87 + n)

/-- The character list of the hex rendering: two digits per byte. -/
def hexChars (bs : List Nat) : List Char :=
  bs.foldr (fun b acc => hexDigitChar (b / 16) :: hexDigitChar (b % 16) :: acc) []

/-- Lower-case hex rendering of a byte list (models Python `.hexdigest()`). -/
def bytesToHex (bs : List Nat) : String := String.mk (hexChars bs)

/-- UTF-8 encoding of one code point (models Python `str.encode("utf-8")`). -/
def utf8Bytes (c : Nat) : List Nat :=
  if c < 128 then [c]
  else if c < 2048 then [192 + c / 64, 128 + c % 64]
  else if c < 65536 then [224 + c / 4096, 128 + c / 64 % 64, 128 + c % 64]
  else [240 + c / 262144, 128 + c / 4096 % 64, 128 + c / 64 % 64, 128 + c % 64]

/-- UTF-8 bytes of a string. -/
def strBytes (s : String) : List Nat := (s.data.map (fun ch => utf8Bytes ch.toNat)).flatten

/-- HMAC-SHA256 (models Python `hmac.new(key, msg, hashlib.sha256)`), RFC 2104
with a 64-byte block size. -/
def hmacSha256 (key msg : List Nat) : List Nat :=
  let k0 := if 64 < key.length then sha256Bytes key else key
  let k := k0 ++ List.replicate (64 - k0.length) 0
  sha256Bytes ((k.map (fun b => b ^^^ 92)) ++ sha256Bytes ((k.map (fun b => b ^^^ 54)) ++ msg))

/-- The process-wide HMAC key for vote anonymity: the `HMAC_SECRET_KEY`
setting of `app/core/config.py` (its declared default value; an `.env`
override does not change any property proved here). -/
def HMAC_SECRET_KEY : String := "change-this-hmac-secret-key-in-production"

/-- Models `generate_vote_token` of `app/core/security.py`: the hex HMAC-SHA256
digest of `user_id + ":" + election_id` under the process-wide key. -/
def generate_vote_token (user_id election_id : String) : String :=
  bytesToHex (hmacSha256 (strBytes HMAC_SECRET_KEY) (strBytes (user_id ++ ":" ++ election_id)))

/-- Models `hash_vote_token` of `app/core/security.py`: the unkeyed SHA-256
digest of the token, as stored in the ledger. -/
def hash_vote_token (token : String) : String := bytesToHex (sha256Bytes (strBytes token))

/-- FIPS 180-4 test vector: SHA-256 of `"abc"`. -/
example : bytesToHex (sha256Bytes (strBytes "abc"))
    = "ba7816bf8f01cfea414140de5dae2223b00361a396177a9cb410ff61f20015ad" := by rfl

/-- RFC 4231 test case 2: HMAC-SHA256 with key `"Jefe"`. -/
example : bytesToHex (hmacSha256 (strBytes "Jefe") (strBytes "what do ya want for nothing?"))
    = "5bdcc146bf60754e6a042426089575c75a003f089d2739839dec58b964ec3843" := by rfl

/-! ## Data model (models `app/models/*.py`)

Each structure keeps the columns that the modelled operations read or
write; audit columns never consulted by the verified operations
(`organization_id`, `created_by`, the users' `email`/`password_hash`
fields) are omitted.  A store is four lists in insertion order — rows
are appended on `INSERT`, matching autoincrement-free UUID tables read
back in creation order. -/

/-- Models the `users` table (`app/models/user.py`): `emp_id` is nullable. -/
structure User where
  id : String
  emp_id : Option String
deriving DecidableEq, Repr

/-- Models the `elections` table (`app/models/election.py`); `status` is one of
`"draft"`, `"active"`, `"closed"` and timestamps are integers. -/
structure Election where
  id : String
  title : String
  description : Option String
  start_time : Int
  end_time : Int
  status : String
deriving DecidableEq, Repr

/-- Models the `candidates` table (`app/models/election.py`). -/
structure Candidate where
  id : String
  election_id : String
  name : String
  created_at : Int
deriving DecidableEq, Repr

/-- Models the `votes` table (`app/models/vote.py`): no user reference, only
the hashed voter token.  The table carries the uniqueness constraint
`uq_vote_election_token` on `(election_id, hashed_voter_token)`. -/
structure Vote where
  election_id : String
  candidate_id : String
  hashed_voter_token : String
  created_at : Int
deriving DecidableEq, Repr

/-- The relational store. -/
structure DB where
  users : List User
  elections : List Election
  candidates : List Candidate
  votes : List Vote
deriving DecidableEq, Repr

/-- Application-level errors: `http` models a raised `HTTPException` with its
status code and detail string; `integrityError` models an uncaught
`sqlalchemy` `IntegrityError` escaping from a failed `commit`. -/
inductive AppError where
  | http (code : Nat) (detail : String)
  | integrityError
deriving DecidableEq, Repr

/-- The HTTP status code of an error outcome, if any. -/
def httpCode {α : Type} : Except AppError α → Option Nat
  | .error (.http code _) => some code
  | _ => none

/-! ## Repositories (models `app/repositories/*.py`) -/

/-- Models `UserRepository.get_by_id`: first user with the given id. -/
def UserRepository.get_by_id (db : DB) (user_id : String) : Option User :=
  db.users.find? (fun u => u.id == user_id)

/-- Models `ElectionRepository.get_by_id`. -/
def ElectionRepository.get_by_id (db : DB) (election_id : String) : Option Election :=
  db.elections.find? (fun e => e.id == election_id)

/-- Models `ElectionRepository.update_status`: sets the status of the election
row with the given id and commits. -/
def ElectionRepository.update_status (db : DB) (election_id status : String) : DB :=
  { db with elections :=
      db.elections.map (fun e => if e.id == election_id then { e with status := status } else e) }

/-- Models `CandidateRepository.get_by_id`. -/
def CandidateRepository.get_by_id (db : DB) (candidate_id : String) : Option Candidate :=
  db.candidates.find? (fun c => c.id == candidate_id)

/-- Models `CandidateRepository.get_by_election`. -/
def CandidateRepository.get_by_election (db : DB) (election_id : String) : List Candidate :=
  db.candidates.filter (fun c => c.election_id == election_id)

/-- Models `VoteRepository.check_duplicate`: whether a vote with this hashed
token already exists for this election. -/
def VoteRepository.check_duplicate (db : DB) (election_id hashed_voter_token : String) : Bool :=
  (db.votes.find? (fun v =>
      v.election_id == election_id && v.hashed_voter_token == hashed_voter_token)).isSome

/-- Models `VoteRepository.cast_vote`: `db.add(vote); db.commit()`.  The commit
enforces the table-level uniqueness constraint `uq_vote_election_token` on
`(election_id, hashed_voter_token)` declared in `app/models/vote.py`: a
conflicting insert raises `IntegrityError` (which this repository function
does not catch) and persists nothing; otherwise the row is appended. -/
def VoteRepository.cast_vote (db : DB) (election_id candidate_id hashed_voter_token : String)
    (now : Int) : Except AppError (Vote × DB) :=
  if VoteRepository.check_duplicate db election_id hashed_voter_token then
    .error .integrityError
  else
    let vote : Vote := { election_id := election_id, candidate_id := candidate_id,
                         hashed_voter_token := hashed_voter_token, created_at := now }
    .ok (vote, { db with votes := db.votes ++ [vote] })

/-- Models `VoteRepository.get_results` before its `ORDER BY`: the grouped
rows of the outer join — one `(candidate id, candidate name, COUNT(Vote.id))`
row per candidate of the election, where the count of joined votes is 0 for a
candidate with no votes. -/
def VoteRepository.get_results_rows (db : DB) (election_id : String) :
    List (String × String × Nat) :=
  (db.candidates.filter (fun c => c.election_id == election_id)).map
    (fun c => (c.id, c.name, (db.votes.filter (fun v => v.candidate_id == c.id)).length))

/-- The only ordering constraint the query's `ORDER BY func.count(Vote.id).desc()`
imposes on the returned rows: vote counts are non-increasing. -/
def sortedByVoteCountDesc (rows : List (String × String × Nat)) : Prop :=
  rows.Pairwise (fun a b => b.2.2 ≤ a.2.2)

/-- Models the result set of `VoteRepository.get_results`: any list of rows the
query may return — the grouped rows in some order with non-increasing vote
counts.  SQL prescribes no order between rows with equal counts, so the
outcome is a relation rather than a function. -/
def VoteRepository.get_results_ok (db : DB) (election_id : String)
    (rows : List (String × String × Nat)) : Prop :=
  rows.Perm (VoteRepository.get_results_rows db election_id) ∧ sortedByVoteCountDesc rows

/-- Models `VoteRepository.get_total_votes`: count of votes for the election. -/
def VoteRepository.get_total_votes (db : DB) (election_id : String) : Nat :=
  (db.votes.filter (fun v => v.election_id == election_id)).length

/-! ## Vote service (models `app/services/vote_service.py`)

`datetime.now(timezone.utc)` is an input: each call takes the current
time `now` as a parameter, also used as the `created_at` default of an
inserted vote row. -/

/-- The value returned by a successful `VoteService.cast_vote` (the constant
`message` field is dropped): the election id and the cast timestamp. -/
structure CastReceipt where
  election_id : String
  voted_at : Int
deriving DecidableEq, Repr

/-- Models the identifier selection of `VoteService.cast_vote` (step 6,
`vote_service.py` lines 72-75): `identifier = user.emp_id if user and
user.emp_id else user_id`.  Python truthiness makes an empty-string
`emp_id` fall back to `user_id` exactly like a missing one. -/
def VoteService.castIdentifier (db : DB) (user_id : String) : String :=
  match UserRepository.get_by_id db user_id with
  | some u =>
      match u.emp_id with
      | some emp => if emp != "" then emp else user_id
      | none => user_id
  | none => user_id

/-- Models the identifier selection of `VoteService.check_vote_status`
(`vote_service.py` lines 135-137).  The source duplicates the expression of
`cast_vote`'s step 6 verbatim; it is modelled as its own definition so that
the agreement of the two policies is a theorem, not a definitional accident. -/
def VoteService.statusIdentifier (db : DB) (user_id : String) : String :=
  match UserRepository.get_by_id db user_id with
  | some u =>
      match u.emp_id with
      | some emp => if emp != "" then emp else user_id
      | none => user_id
  | none => user_id

/-- Models `VoteService.cast_vote`: election existence, status, time window and
candidate checks, then anonymous-token derivation, the application-level
duplicate pre-check, and the insert.  A raised `HTTPException` leaves the
store unchanged; an error raised by the repository insert propagates (there
is no `try/except` anywhere on this path in the source). -/
def VoteService.cast_vote (db : DB) (now : Int) (user_id election_id candidate_id : String) :
    Except AppError CastReceipt × DB :=
  match ElectionRepository.get_by_id db election_id with
  | none => (.error (.http 404 "Election not found"), db)
  | some election =>
    if election.status != "active" then
      (.error (.http 400 ("Election is not active (current status: " ++ election.status ++ ")")), db)
    else if now < election.start_time then
      (.error (.http 400 "Election has not started yet"), db)
    else if now > election.end_time then
      (.error (.http 400 "Election has ended"), db)
    else
      match CandidateRepository.get_by_id db candidate_id with
      | none => (.error (.http 400 "Invalid candidate for this election"), db)
      | some candidate =>
        if candidate.election_id != election_id then
          (.error (.http 400 "Invalid candidate for this election"), db)
        else
          let identifier := VoteService.castIdentifier db user_id
          let vote_token := generate_vote_token identifier election_id
          let hashed_token := hash_vote_token vote_token
          if VoteRepository.check_duplicate db election_id hashed_token then
            (.error (.http 409 "You have already voted in this election"), db)
          else
            match VoteRepository.cast_vote db election_id candidate_id hashed_token now with
            | .error err => (.error err, db)
            | .ok (vote, db') =>
              (.ok { election_id := election_id, voted_at := vote.created_at }, db')

/-- Models `VoteService.cast_vote` racing against a concurrent committed
writer: `dbInsert` is the vote store that the `commit` inside
`VoteRepository.cast_vote` observes, which under concurrent submissions may
already hold a row committed after this call's duplicate pre-check (the
pre-check, like every other read, sees `db`).  `cast_vote_race db db …` is
exactly the sequential `cast_vote` (theorem `cast_vote_race_seq`). -/
def VoteService.cast_vote_race (db dbInsert : DB) (now : Int)
    (user_id election_id candidate_id : String) : Except AppError CastReceipt × DB :=
  match ElectionRepository.get_by_id db election_id with
  | none => (.error (.http 404 "Election not found"), db)
  | some election =>
    if election.status != "active" then
      (.error (.http 400 ("Election is not active (current status: " ++ election.status ++ ")")), db)
    else if now < election.start_time then
      (.error (.http 400 "Election has not started yet"), db)
    else if now > election.end_time then
      (.error (.http 400 "Election has ended"), db)
    else
      match CandidateRepository.get_by_id db candidate_id with
      | none => (.error (.http 400 "Invalid candidate for this election"), db)
      | some candidate =>
        if candidate.election_id != election_id then
          (.error (.http 400 "Invalid candidate for this election"), db)
        else
          let identifier := VoteService.castIdentifier db user_id
          let vote_token := generate_vote_token identifier election_id
          let hashed_token := hash_vote_token vote_token
          if VoteRepository.check_duplicate db election_id hashed_token then
            (.error (.http 409 "You have already voted in this election"), db)
          else
            match VoteRepository.cast_vote dbInsert election_id candidate_id hashed_token now with
            | .error err => (.error err, dbInsert)
            | .ok (vote, db') =>
              (.ok { election_id := election_id, voted_at := vote.created_at }, db')

/-- With no interleaved writer the race model is the sequential service call. -/
theorem cast_vote_race_seq (db : DB) (now : Int) (user_id election_id candidate_id : String) :
    VoteService.cast_vote_race db db now user_id election_id candidate_id
      = VoteService.cast_vote db now user_id election_id candidate_id := by
  rfl

/-- Models `VoteService.check_vote_status`: recomputes the token with the
status-check identifier policy and queries ledger membership. -/
def VoteService.check_vote_status (db : DB) (user_id election_id : String) : Bool :=
  let identifier := VoteService.statusIdentifier db user_id
  let vote_token := generate_vote_token identifier election_id
  let hashed_token := hash_vote_token vote_token
  VoteRepository.check_duplicate db election_id hashed_token

/-- The response payload of `VoteService.get_results`. -/
structure ElectionResults where
  election_id : String
  title : String
  status : String
  total_votes : Nat
  results : List (String × String × Nat)
deriving DecidableEq, Repr

/-- Models `VoteService.get_results` as a relation between the store and the
possible responses: the election and status guards are deterministic, and the
result rows are any list the repository query may return
(`VoteRepository.get_results_ok`). -/
def VoteService.get_results_rel (db : DB) (election_id : String)
    (out : Except AppError ElectionResults) : Prop :=
  match ElectionRepository.get_by_id db election_id with
  | none => out = .error (.http 404 "Election not found")
  | some election =>
    if election.status != "closed" then
      out = .error (.http 400 "Results are only available after the election is closed")
    else
      ∃ rows, VoteRepository.get_results_ok db election_id rows ∧
        out = .ok { election_id := election_id, title := election.title,
                    status := election.status,
                    total_votes := VoteRepository.get_total_votes db election_id,
                    results := rows }

/-! ## Election service (models `app/services/election_service.py`) -/

/-- The fields of the `ElectionUpdate` request schema
(`app/schemas/election_schema.py`): title, description and the two
timestamps — the schema has no `status` field, so an update request can
never carry one.  `none` models a field absent from the request
(`exclude_unset=True` in the route plus the repository's `value is not
None` guard). -/
structure ElectionUpdateData where
  title : Option String
  description : Option String
  start_time : Option Int
  end_time : Option Int
deriving DecidableEq, Repr

/-- Models `ElectionRepository.update` applied to the fields of an
`ElectionUpdate` request: each present field overwrites the column. -/
def ElectionRepository.update (db : DB) (election_id : String) (data : ElectionUpdateData) : DB :=
  { db with elections := db.elections.map (fun e =>
      if e.id == election_id then
        { e with
            title := data.title.getD e.title,
            description := (if data.description.isSome then data.description else e.description),
            start_time := data.start_time.getD e.start_time,
            end_time := data.end_time.getD e.end_time }
      else e) }

/-- Models `ElectionService.update_election`: 404 when absent, draft-only. -/
def ElectionService.update_election (db : DB) (election_id : String) (data : ElectionUpdateData) :
    Except AppError Election × DB :=
  match ElectionRepository.get_by_id db election_id with
  | none => (.error (.http 404 "Election not found"), db)
  | some election =>
    if election.status != "draft" then
      (.error (.http 400 "Can only update elections in draft status"), db)
    else
      ( .ok { election with
                title := data.title.getD election.title,
                description := (if data.description.isSome then data.description
                                else election.description),
                start_time := data.start_time.getD election.start_time,
                end_time := data.end_time.getD election.end_time },
        ElectionRepository.update db election_id data )

/-- Models `ElectionService.activate_election`: 404 when absent, draft-only,
at least two candidates required, then status becomes `"active"`. -/
def ElectionService.activate_election (db : DB) (election_id : String) :
    Except AppError Election × DB :=
  match ElectionRepository.get_by_id db election_id with
  | none => (.error (.http 404 "Election not found"), db)
  | some election =>
    if election.status != "draft" then
      (.error (.http 400 "Can only activate elections in draft status"), db)
    else
      if (CandidateRepository.get_by_election db election_id).length < 2 then
        (.error (.http 400 "Election must have at least 2 candidates to activate"), db)
      else
        ( .ok { election with status := "active" },
          ElectionRepository.update_status db election_id "active" )

/-- Models `ElectionService.close_election`: 404 when absent, active-only,
then status becomes `"closed"`. -/
def ElectionService.close_election (db : DB) (election_id : String) :
    Except AppError Election × DB :=
  match ElectionRepository.get_by_id db election_id with
  | none => (.error (.http 404 "Election not found"), db)
  | some election =>
    if election.status != "active" then
      (.error (.http 400 "Can only close active elections"), db)
    else
      ( .ok { election with status := "closed" },
        ElectionRepository.update_status db election_id "closed" )

/-- The service operations that touch election rows at all: every other
operation of the repository leaves the `elections` table unchanged. -/
inductive ElectionOp where
  | activate (election_id : String)
  | close (election_id : String)
  | update (election_id : String) (data : ElectionUpdateData)
deriving DecidableEq, Repr

/-- The store after running one election-service operation. -/
def ElectionOp.apply (op : ElectionOp) (db : DB) : DB :=
  match op with
  | .activate eid => (ElectionService.activate_election db eid).2
  | .close eid => (ElectionService.close_election db eid).2
  | .update eid data => (ElectionService.update_election db eid data).2

/-- The legal single-step status moves of the election lifecycle. -/
def statusStep (s t : String) : Prop :=
  t = s ∨ (s = "draft" ∧ t = "active") ∨ (s = "active" ∧ t = "closed")

/-! ## Claim C1 — insert-time constraint violation

Concrete race scenario: between this call's duplicate pre-check (which
sees `dbC1`, an empty ledger) and its insert, a concurrent request for
the same voter and election commits a vote, so the insert's commit sees
`dbC1insert` and violates `uq_vote_election_token`. -/

/-- An active election open from time 0 to 10. -/
def electionC1 : Election :=
  { id := "e1", title := "Board", description := none, start_time := 0, end_time := 10,
    status := "active" }

/-- A candidate of `electionC1`. -/
def candidateC1 : Candidate := { id := "c1", election_id := "e1", name := "A", created_at := 1 }

/-- The store all validation reads see: no votes yet. -/
def dbC1 : DB := { users := [], elections := [electionC1], candidates := [candidateC1], votes := [] }

/-- The concurrently committed vote of the same voter `"u1"` in `"e1"`. -/
def voteC1race : Vote :=
  { election_id := "e1", candidate_id := "c2",
    hashed_voter_token := hash_vote_token (generate_vote_token "u1" "e1"), created_at := 4 }

/-- The store the insert's commit sees. -/
def dbC1insert : DB := { dbC1 with votes := [voteC1race] }

/-- Claim C1: a `castVote` whose insert violates the storage-level uniqueness
constraint on `(election_id, hashed_voter_token)` is claimed to fail with the
`DuplicateVote` outcome (HTTP 409).  In the code the violation is not caught
anywhere — neither `VoteRepository.cast_vote` nor `VoteService.cast_vote` has
a `try/except` — so at this concrete conflicting input the call surfaces the
raw storage `IntegrityError` instead of the `DuplicateVote` response. -/
theorem c1_insert_conflict_uncaught :
    (VoteService.cast_vote_race dbC1 dbC1insert 5 "u1" "e1" "c1").1 = .error .integrityError
    ∧ httpCode (VoteService.cast_vote_race dbC1 dbC1insert 5 "u1" "e1" "c1").1 = none := by
  have h : (VoteService.cast_vote_race dbC1 dbC1insert 5 "u1" "e1" "c1").1
      = .error .integrityError := by rfl
  exact ⟨h, by rw [h]; rfl⟩

/-- Claim C2: every `cast_vote` call either succeeds and appends exactly one
vote record to the ledger, or fails and leaves the whole store unchanged. -/
theorem c2_cast_vote_ledger :
    ∀ (db : DB) (now : Int) (user_id election_id candidate_id : String),
      (∃ r vote, VoteService.cast_vote db now user_id election_id candidate_id
          = (.ok r, { db with votes := db.votes ++ [vote] }))
      ∨ (∃ err, VoteService.cast_vote db now user_id election_id candidate_id
          = (.error err, db)) := by
  intro db now user_id election_id candidate_id
  simp only [VoteService.cast_vote, VoteRepository.cast_vote]
  repeat' split
  all_goals first
    | exact Or.inr ⟨_, rfl⟩
    | exact Or.inl ⟨_, _, rfl⟩
    | (rename_i heq
       cases heq
       first
         | exact Or.inr ⟨_, rfl⟩
         | exact Or.inl ⟨_, _, rfl⟩)

/-! ## Claim C3 — validation order -/

/-- Modelled from the spec's validation-order sentence: a priority chain in
which the first failing check determines the outcome, in the order election
existence → election status → window start → window end → candidate exists
and belongs to the election → duplicate check, each paired with the error the
code raises for it; when no check fails the cast succeeds.  Fields of a
missing election are defaulted; a default is only reachable below the earlier
existence check. -/
def castVoteSpecOrder (db : DB) (now : Int) (user_id election_id candidate_id : String) :
    Except AppError CastReceipt :=
  let election? := ElectionRepository.get_by_id db election_id
  let status := (election?.map Election.status).getD ""
  let startT := (election?.map Election.start_time).getD 0
  let endT := (election?.map Election.end_time).getD 0
  let candidate? := CandidateRepository.get_by_id db candidate_id
  if election?.isNone then .error (.http 404 "Election not found")
  else if status != "active" then
    .error (.http 400 ("Election is not active (current status: " ++ status ++ ")"))
  else if now < startT then .error (.http 400 "Election has not started yet")
  else if now > endT then .error (.http 400 "Election has ended")
  else if (match candidate? with
           | none => true
           | some c => c.election_id != election_id) then
    .error (.http 400 "Invalid candidate for this election")
  else if VoteRepository.check_duplicate db election_id
      (hash_vote_token (generate_vote_token (VoteService.castIdentifier db user_id) election_id))
    then .error (.http 409 "You have already voted in this election")
  else .ok { election_id := election_id, voted_at := now }

/-- Claim C3: `cast_vote` validates in exactly the spec's order — the outcome
the caller observes is that of the priority chain `castVoteSpecOrder`, whose
first failing check in the spec's order determines the error. -/
theorem c3_validation_order :
    ∀ (db : DB) (now : Int) (user_id election_id candidate_id : String),
      (VoteService.cast_vote db now user_id election_id candidate_id).1
        = castVoteSpecOrder db now user_id election_id candidate_id := by
  intro db now user_id election_id candidate_id
  cases helec : ElectionRepository.get_by_id db election_id with
  | none =>
      simp [VoteService.cast_vote, castVoteSpecOrder, helec]
  | some e =>
      cases hc : CandidateRepository.get_by_id db candidate_id with
      | none =>
          cases h1 : e.status != "active" <;>
            by_cases h2 : now < e.start_time <;>
              by_cases h3 : now > e.end_time <;>
                cases h5 : VoteRepository.check_duplicate db election_id
                    (hash_vote_token (generate_vote_token
                      (VoteService.castIdentifier db user_id) election_id)) <;>
                  simp [VoteService.cast_vote, castVoteSpecOrder, VoteRepository.cast_vote,
                    helec, hc, h1, h2, h3, h5]
      | some c =>
          cases h1 : e.status != "active" <;>
            by_cases h2 : now < e.start_time <;>
              by_cases h3 : now > e.end_time <;>
                cases h4 : c.election_id != election_id <;>
                  cases h5 : VoteRepository.check_duplicate db election_id
                      (hash_vote_token (generate_vote_token
                        (VoteService.castIdentifier db user_id) election_id)) <;>
                    simp [VoteService.cast_vote, castVoteSpecOrder, VoteRepository.cast_vote,
                      helec, hc, h1, h2, h3, h4, h5]

/-! ## Claim C4 — token derivation and storage -/

/-- A lower-case hexadecimal digit. -/
def isHexDigitCh (ch : Char) : Bool :=
  (48 ≤ ch.toNat && ch.toNat ≤ 57) || (97 ≤ ch.toNat && ch.toNat ≤ 102)

/-- Digits below 16 render as hex characters. -/
theorem hexDigitChar_isHex : ∀ n, n < 16 → isHexDigitCh (hexDigitChar n) = true := by decide

/-- A SHA-256 digest is exactly 32 bytes. -/
theorem sha256Bytes_length (msg : List Nat) : (sha256Bytes msg).length = 32 := by
  simp [sha256Bytes, be32]

/-- Each byte of a big-endian word serialization is below 256. -/
theorem be32_lt (x b : Nat) (hb : b ∈ be32 x) : b < 256 := by
  simp [be32] at hb
  rcases hb with rfl | rfl | rfl | rfl <;> omega

/-- Each byte of a SHA-256 digest is below 256. -/
theorem sha256Bytes_lt (msg : List Nat) : ∀ b ∈ sha256Bytes msg, b < 256 := by
  intro b hb
  have h : ∀ st : Hash8, b ∈ be32 st.a ++ be32 st.b ++ be32 st.c ++ be32 st.d ++
      be32 st.e ++ be32 st.f ++ be32 st.g ++ be32 st.h → b < 256 := by
    intro st hst
    simp only [List.mem_append] at hst
    rcases hst with ((((((h | h) | h) | h) | h) | h) | h) | h <;> exact be32_lt _ _ h
  exact h _ hb

/-- Hex rendering doubles the length. -/
theorem hexChars_length (bs : List Nat) : (hexChars bs).length = 2 * bs.length := by
  induction bs with
  | nil => rfl
  | cons b bs ih => simp [hexChars] at ih ⊢; omega

/-- Hex rendering of genuine bytes yields only hex digits. -/
theorem hexChars_hex (bs : List Nat) (hbs : ∀ b ∈ bs, b < 256) :
    ∀ ch ∈ hexChars bs, isHexDigitCh ch = true := by
  induction bs with
  | nil => simp [hexChars]
  | cons b bs ih =>
      intro ch hch
      have hb : b < 256 := hbs b (by simp)
      simp only [hexChars, List.foldr_cons, List.mem_cons] at hch
      rcases hch with rfl | rfl | h
      · exact hexDigitChar_isHex _ ((Nat.div_lt_iff_lt_mul (by norm_num)).mpr (by omega))
      · exact hexDigitChar_isHex _ (Nat.mod_lt _ (by norm_num))
      · exact ih (fun x hx => hbs x (by simp [hx])) ch h

/-- Claim C4: the derived vote token is the hex HMAC of
`voterIdentifier ++ ":" ++ electionId` under the process-wide secret key; it is
a fixed-length (64 character) hex string; derivation is deterministic; and a
successful cast persists exactly one record whose stored token field is the
unkeyed SHA-256 digest of the token — the `Vote` row has no field holding the
voter identifier or the raw token. -/
theorem c4_token_derivation :
    (∀ voter_id election_id, generate_vote_token voter_id election_id
        = bytesToHex (hmacSha256 (strBytes HMAC_SECRET_KEY)
            (strBytes (voter_id ++ ":" ++ election_id))))
    ∧ (∀ voter_id election_id, (generate_vote_token voter_id election_id).length = 64
        ∧ ∀ ch ∈ (generate_vote_token voter_id election_id).data, isHexDigitCh ch = true)
    ∧ (∀ v1 e1 v2 e2, v1 = v2 → e1 = e2 →
        generate_vote_token v1 e1 = generate_vote_token v2 e2)
    ∧ (∀ (db : DB) (now : Int) (user_id election_id candidate_id : String) r db',
        VoteService.cast_vote db now user_id election_id candidate_id = (.ok r, db') →
        db'.votes = db.votes ++
          [{ election_id := election_id, candidate_id := candidate_id,
             hashed_voter_token := hash_vote_token (generate_vote_token
               (VoteService.castIdentifier db user_id) election_id),
             created_at := now }]) := by
  refine ⟨fun v e => rfl, ?_, ?_, ?_⟩
  · intro voter_id election_id
    have hlen : (hmacSha256 (strBytes HMAC_SECRET_KEY)
        (strBytes (voter_id ++ ":" ++ election_id))).length = 32 := sha256Bytes_length _
    constructor
    · show (hexChars _).length = 64
      rw [hexChars_length, hlen]
    · intro ch hch
      refine hexChars_hex _ (fun b hb => ?_) ch hch
      exact sha256Bytes_lt _ b hb
  · intro v1 e1 v2 e2 hv he
    rw [hv, he]
  · intro db now user_id election_id candidate_id r db' h
    simp only [VoteService.cast_vote, VoteRepository.cast_vote] at h
    repeat' split at h
    all_goals
      first
        | (injection h with h1 h2
           first
             | exact Except.noConfusion h1
             | (subst h2; rfl))
        | (rename_i heq
           cases heq
           injection h with h1 h2
           subst h2
           rfl)

/-- Witness data: an active election open from 0 to 10 with one candidate and
an empty ledger and user store. -/
def electionC4 : Election :=
  { id := "e1", title := "Board", description := none, start_time := 0, end_time := 10,
    status := "active" }

/-- Candidate of `electionC4`. -/
def candidateC4 : Candidate := { id := "c1", election_id := "e1", name := "A", created_at := 1 }

/-- Concrete store for the C4 witness. -/
def dbC4 : DB := { users := [], elections := [electionC4], candidates := [candidateC4], votes := [] }

/-- The record a successful cast on `dbC4` appends. -/
def voteRecC4 : Vote :=
  { election_id := "e1", candidate_id := "c1",
    hashed_voter_token := hash_vote_token (generate_vote_token
      (VoteService.castIdentifier dbC4 "u1") "e1"),
    created_at := 5 }

/-- Witness for C4: determinism and the persisted-digest property evaluated at
a concrete successful cast. -/
theorem c4_token_derivation_witness :
    generate_vote_token "u1" "e1" = generate_vote_token "u1" "e1"
    ∧ ({ dbC4 with votes := dbC4.votes ++ [voteRecC4] } : DB).votes
        = dbC4.votes ++ [voteRecC4] := by
  exact ⟨c4_token_derivation.2.2.1 "u1" "e1" "u1" "e1" rfl rfl,
    c4_token_derivation.2.2.2 dbC4 5 "u1" "e1" "c1" { election_id := "e1", voted_at := 5 }
      { dbC4 with votes := dbC4.votes ++ [voteRecC4] } rfl⟩

/-! ## Claim C5 — employee-identifier precedence -/

/-- Claim C5: two accounts sharing a (non-empty) employee id derive the same
token for the same election; when a user is found, the employee id takes
precedence and the account id is used only without one (or with the empty one
Python treats as absent); the status check selects identifiers exactly like
the cast path, so `check_vote_status` tests membership of precisely the token
`cast_vote` would use. -/
theorem c5_emp_id_precedence :
    (∀ (db : DB) (a b : String) (u1 u2 : User) (emp election_id : String),
      UserRepository.get_by_id db a = some u1 →
      UserRepository.get_by_id db b = some u2 →
      u1.emp_id = some emp → u2.emp_id = some emp → emp ≠ "" →
      generate_vote_token (VoteService.castIdentifier db a) election_id
        = generate_vote_token (VoteService.castIdentifier db b) election_id)
    ∧ (∀ (db : DB) (uid : String) (u : User), UserRepository.get_by_id db uid = some u →
        ((∀ emp, u.emp_id = some emp → emp ≠ "" → VoteService.castIdentifier db uid = emp)
         ∧ (u.emp_id = none → VoteService.castIdentifier db uid = uid)))
    ∧ (∀ (db : DB) (uid : String),
        VoteService.statusIdentifier db uid = VoteService.castIdentifier db uid)
    ∧ (∀ (db : DB) (uid eid : String), VoteService.check_vote_status db uid eid
        = VoteRepository.check_duplicate db eid
            (hash_vote_token (generate_vote_token (VoteService.castIdentifier db uid) eid))) := by
  refine ⟨?_, ?_, fun db uid => rfl, fun db uid eid => rfl⟩
  · intro db a b u1 u2 emp election_id h1 h2 he1 he2 hne
    have ha : VoteService.castIdentifier db a = emp := by
      simp [VoteService.castIdentifier, h1, he1, hne]
    have hb : VoteService.castIdentifier db b = emp := by
      simp [VoteService.castIdentifier, h2, he2, hne]
    rw [ha, hb]
  · intro db uid u hu
    constructor
    · intro emp hemp hne
      simp [VoteService.castIdentifier, hu, hemp, hne]
    · intro hnone
      simp [VoteService.castIdentifier, hu, hnone]

/-- Two accounts sharing employee id `"E7"`. -/
def userC5a : User := { id := "a", emp_id := some "E7" }

/-- Second account with the same employee id. -/
def userC5b : User := { id := "b", emp_id := some "E7" }

/-- Concrete user store for the C5 witness. -/
def dbC5 : DB := { users := [userC5a, userC5b], elections := [], candidates := [], votes := [] }

/-- Witness for C5 at the two concrete accounts sharing `"E7"`. -/
theorem c5_emp_id_precedence_witness :
    generate_vote_token (VoteService.castIdentifier dbC5 "a") "e1"
      = generate_vote_token (VoteService.castIdentifier dbC5 "b") "e1"
    ∧ VoteService.castIdentifier dbC5 "a" = "E7"
    ∧ VoteService.statusIdentifier dbC5 "a" = VoteService.castIdentifier dbC5 "a" := by
  exact ⟨c5_emp_id_precedence.1 dbC5 "a" "b" userC5a userC5b "E7" "e1" rfl rfl rfl rfl
      (by decide),
    (c5_emp_id_precedence.2.1 dbC5 "a" userC5a rfl).1 "E7" rfl (by decide),
    c5_emp_id_precedence.2.2.1 dbC5 "a"⟩

/-! ## Claim C6 — absent candidate vs invalid candidate -/

/-- An active election with no candidates at all. -/
def electionC6 : Election :=
  { id := "e1", title := "Vote", description := none, start_time := 0, end_time := 10,
    status := "active" }

/-- Concrete store for C6: election present, candidate store empty. -/
def dbC6 : DB := { users := [], elections := [electionC6], candidates := [], votes := [] }

/-- Counterexample to claim C6 as stated: with the election present, active and
in window, casting for the absent candidate id `"nope"` fails with the HTTP
400 `InvalidCandidate` error — the same error as a wrong-election candidate —
not with a 404 `NotFound` as the claim asserts for an absent candidate. -/
theorem c6_absent_candidate_counterexample :
    (VoteService.cast_vote dbC6 5 "u1" "e1" "nope").1
        = .error (.http 400 "Invalid candidate for this election")
    ∧ httpCode (VoteService.cast_vote dbC6 5 "u1" "e1" "nope").1 = some 400
    ∧ (httpCode (VoteService.cast_vote dbC6 5 "u1" "e1" "nope").1 == some 404) = false := by
  exact ⟨rfl, rfl, rfl⟩

/-- Claim C6 as amended: `cast_vote` fails with 404 `NotFound` only for an
absent election; an absent candidate and a candidate of another election both
fail with the same 400 `InvalidCandidate` error. -/
theorem c6_notfound_vs_invalid_candidate :
    ∀ (db : DB) (now : Int) (user_id election_id candidate_id : String),
      (ElectionRepository.get_by_id db election_id = none →
        (VoteService.cast_vote db now user_id election_id candidate_id).1
          = .error (.http 404 "Election not found"))
      ∧ (∀ e, ElectionRepository.get_by_id db election_id = some e →
          e.status = "active" → ¬now < e.start_time → ¬now > e.end_time →
          (CandidateRepository.get_by_id db candidate_id = none ∨
            ∃ c, CandidateRepository.get_by_id db candidate_id = some c
              ∧ c.election_id ≠ election_id) →
          (VoteService.cast_vote db now user_id election_id candidate_id).1
            = .error (.http 400 "Invalid candidate for this election")) := by
  intro db now user_id election_id candidate_id
  constructor
  · intro h
    simp [VoteService.cast_vote, h]
  · intro e he hst hs hend hcand
    rcases hcand with hc | ⟨c, hc, hcne⟩
    · simp [VoteService.cast_vote, he, hst, hs, hend, hc]
    · simp [VoteService.cast_vote, he, hst, hs, hend, hc, hcne]

/-- Witness for the amended C6 at concrete inputs: a missing election id and an
absent candidate id. -/
theorem c6_notfound_vs_invalid_candidate_witness :
    (VoteService.cast_vote dbC6 5 "u1" "missing" "c1").1
        = .error (.http 404 "Election not found")
    ∧ (VoteService.cast_vote dbC6 5 "u1" "e1" "ghost").1
        = .error (.http 400 "Invalid candidate for this election") := by
  exact ⟨(c6_notfound_vs_invalid_candidate dbC6 5 "u1" "missing" "c1").1 rfl,
    (c6_notfound_vs_invalid_candidate dbC6 5 "u1" "e1" "ghost").2 electionC6 rfl rfl
      (by decide) (by decide) (Or.inl rfl)⟩

/-! ## Claim C7 — tally precondition and content -/

/-- Claim C7: `get_results` rejects any existing election that is not closed
with the `InvalidState` 400 error; for a closed election every possible
response carries one entry per candidate of the election (zero-vote candidates
included, stated as a permutation of the candidate-id multiset), each entry's
count is the number of ledger votes for that candidate, and the total equals
the number of vote records of the election. -/
theorem c7_tally :
    ∀ (db : DB) (election_id : String) (out : Except AppError ElectionResults),
      VoteService.get_results_rel db election_id out →
      (∀ e, ElectionRepository.get_by_id db election_id = some e → e.status ≠ "closed" →
        out = .error (.http 400 "Results are only available after the election is closed"))
      ∧ (∀ e, ElectionRepository.get_by_id db election_id = some e → e.status = "closed" →
          ∃ t, out = .ok t)
      ∧ (∀ t, out = .ok t →
          t.total_votes = (db.votes.filter (fun v => v.election_id == election_id)).length
          ∧ (t.results.map (fun r => r.1)).Perm
              ((db.candidates.filter (fun c => c.election_id == election_id)).map
                (fun c => c.id))
          ∧ ∀ r ∈ t.results,
              r.2.2 = (db.votes.filter (fun v => v.candidate_id == r.1)).length) := by
  intro db election_id out hrel
  cases helec : ElectionRepository.get_by_id db election_id with
  | none =>
      have hout : out = .error (.http 404 "Election not found") := by
        unfold VoteService.get_results_rel at hrel
        rw [helec] at hrel
        exact hrel
      refine ⟨?_, ?_, ?_⟩
      · intro e he
        exact absurd he (by simp)
      · intro e he
        exact absurd he (by simp)
      · intro t ht
        rw [hout] at ht
        exact absurd ht (by simp)
  | some e =>
      have hrel' : if (e.status != "closed") = true then
            out = .error (.http 400 "Results are only available after the election is closed")
          else ∃ rows, VoteRepository.get_results_ok db election_id rows ∧
            out = .ok { election_id := election_id, title := e.title, status := e.status,
                        total_votes := VoteRepository.get_total_votes db election_id,
                        results := rows } := by
        unfold VoteService.get_results_rel at hrel
        rw [helec] at hrel
        exact hrel
      by_cases hst : e.status = "closed"
      · rw [if_neg (by simp [hst])] at hrel'
        obtain ⟨rows, ⟨hperm, hsort⟩, hout⟩ := hrel'
        refine ⟨?_, ?_, ?_⟩
        · intro e' he' hne
          injection he' with h
          subst h
          exact absurd hst hne
        · intro e' he' hcl
          exact ⟨_, hout⟩
        · intro t ht
          rw [hout] at ht
          injection ht with h
          subst h
          refine ⟨rfl, ?_, ?_⟩
          · have hm := hperm.map (fun r => r.1)
            simpa [VoteRepository.get_results_rows, List.map_map, Function.comp] using hm
          · intro r hr
            have hr0 : r ∈ VoteRepository.get_results_rows db election_id :=
              hperm.mem_iff.mp hr
            simp only [VoteRepository.get_results_rows, List.mem_map] at hr0
            obtain ⟨c, hc, hcr⟩ := hr0
            rw [← hcr]
      · rw [if_pos (bne_iff_ne.mpr hst)] at hrel'
        refine ⟨?_, ?_, ?_⟩
        · intro e' he' hne
          exact hrel'
        · intro e' he' hcl
          injection he' with h
          subst h
          exact absurd hcl hst
        · intro t ht
          rw [hrel'] at ht
          exact absurd ht (by simp)

/-- A closed election for the C7 witness. -/
def electionC7 : Election :=
  { id := "e1", title := "Board", description := none, start_time := 0, end_time := 10,
    status := "closed" }

/-- A draft election in the same store, for the not-closed branch. -/
def electionC7d : Election :=
  { id := "e2", title := "Draft", description := none, start_time := 0, end_time := 10,
    status := "draft" }

/-- First candidate of the closed election. -/
def candC7a : Candidate := { id := "A", election_id := "e1", name := "Alice", created_at := 1 }

/-- Second candidate of the closed election, with zero votes. -/
def candC7b : Candidate := { id := "B", election_id := "e1", name := "Bob", created_at := 2 }

/-- One ledger vote for candidate `"A"`. -/
def voteC7 : Vote :=
  { election_id := "e1", candidate_id := "A", hashed_voter_token := "h1", created_at := 3 }

/-- Concrete store for the C7 witness. -/
def dbC7 : DB :=
  { users := [], elections := [electionC7, electionC7d], candidates := [candC7a, candC7b],
    votes := [voteC7] }

/-- The concrete tally response for `dbC7`. -/
def resC7 : ElectionResults :=
  { election_id := "e1", title := "Board", status := "closed", total_votes := 1,
    results := [("A", "Alice", 1), ("B", "Bob", 0)] }

/-- Witness for C7: the relation holds of the concrete response, and the
theorem's conclusions evaluate at it (the not-closed branch is exercised on
the draft election `"e2"`). -/
theorem c7_tally_witness :
    resC7.total_votes = (dbC7.votes.filter (fun v => v.election_id == "e1")).length
    ∧ (resC7.results.map (fun r => r.1)).Perm
        ((dbC7.candidates.filter (fun c => c.election_id == "e1")).map (fun c => c.id))
    ∧ (("A", "Alice", 1) : String × String × Nat).2.2
        = (dbC7.votes.filter (fun v => v.candidate_id == "A")).length
    ∧ (Except.error (AppError.http 400
        "Results are only available after the election is closed")
          : Except AppError ElectionResults)
        = .error (.http 400 "Results are only available after the election is closed") := by
  have hrel : VoteService.get_results_rel dbC7 "e1" (.ok resC7) := by
    unfold VoteService.get_results_rel
    exact ⟨resC7.results, ⟨by decide, by unfold sortedByVoteCountDesc; decide⟩, rfl⟩
  have hrel2 : VoteService.get_results_rel dbC7 "e2"
      (.error (.http 400 "Results are only available after the election is closed")) := by
    unfold VoteService.get_results_rel
    rfl
  have h := (c7_tally dbC7 "e1" (.ok resC7) hrel).2.2 resC7 rfl
  exact ⟨h.1, h.2.1, h.2.2 ("A", "Alice", 1) (by simp [resC7]),
    (c7_tally dbC7 "e2" _ hrel2).1 electionC7d rfl (by decide)⟩

/-! ## Claim C8 — ordering of tally entries -/

/-- A closed election with two tied (zero-vote) candidates. -/
def electionC8 : Election :=
  { id := "e1", title := "Tie", description := none, start_time := 0, end_time := 10,
    status := "closed" }

/-- First created candidate (creation timestamp 1, listed first). -/
def candC8a : Candidate := { id := "A", election_id := "e1", name := "Alice", created_at := 1 }

/-- Second created candidate (creation timestamp 2, listed second). -/
def candC8b : Candidate := { id := "B", election_id := "e1", name := "Bob", created_at := 2 }

/-- Concrete store for C8: two candidates, no votes, so the counts tie at 0. -/
def dbC8 : DB :=
  { users := [], elections := [electionC8], candidates := [candC8a, candC8b], votes := [] }

/-- A response listing the tied candidates in reverse creation order. -/
def resC8 : ElectionResults :=
  { election_id := "e1", title := "Tie", status := "closed", total_votes := 0,
    results := [("B", "Bob", 0), ("A", "Alice", 0)] }

/-- Counterexample to claim C8 as stated: the repository query constrains only
the vote counts to be non-increasing (`ORDER BY count DESC` with no tie-break
term), so the response `resC8`, which lists the two tied candidates in reverse
creation order, is among the admissible results of `get_results` — candidates
with equal counts are not ordered by candidate creation order. -/
theorem c8_tie_order_counterexample :
    VoteService.get_results_rel dbC8 "e1" (.ok resC8)
    ∧ resC8.results.map (fun r => r.1) = ["B", "A"]
    ∧ dbC8.candidates.map (fun c => c.id) = ["A", "B"]
    ∧ dbC8.candidates.map (fun c => c.created_at) = [1, 2]
    ∧ resC8.results.map (fun r => r.2.2) = [0, 0] := by
  refine ⟨?_, rfl, rfl, rfl, rfl⟩
  unfold VoteService.get_results_rel
  exact ⟨resC8.results, ⟨by decide, by unfold sortedByVoteCountDesc; decide⟩, rfl⟩

/-- Claim C8 as amended: every admissible result list of the tally query is
ordered by non-increasing vote count — for any two positions, the later entry
carries at most the earlier entry's count; the relative order of entries with
equal counts is not constrained. -/
theorem c8_sorted_desc :
    ∀ (db : DB) (election_id : String) (rows : List (String × String × Nat)),
      VoteRepository.get_results_ok db election_id rows →
      ∀ i j (hi : i < rows.length) (hj : j < rows.length), i ≤ j →
        (rows.get ⟨j, hj⟩).2.2 ≤ (rows.get ⟨i, hi⟩).2.2 := by
  intro db election_id rows hok i j hi hj hij
  obtain ⟨-, hsort⟩ := hok
  rcases Nat.eq_or_lt_of_le hij with heq | hlt
  · subst heq
    exact Nat.le_refl _
  · exact List.pairwise_iff_get.mp hsort ⟨i, hi⟩ ⟨j, hj⟩ hlt

/-- Witness for the amended C8 at the concrete sorted response `[A:1, B:0]`
of the store `dbC7`. -/
theorem c8_sorted_desc_witness :
    (([("A", "Alice", 1), ("B", "Bob", 0)] : List (String × String × Nat)).get
        ⟨1, by decide⟩).2.2
      ≤ (([("A", "Alice", 1), ("B", "Bob", 0)] : List (String × String × Nat)).get
        ⟨0, by decide⟩).2.2 := by
  exact c8_sorted_desc dbC7 "e1" [("A", "Alice", 1), ("B", "Bob", 0)]
    ⟨by decide, by unfold sortedByVoteCountDesc; decide⟩ 0 1 (by decide) (by decide)
    (by decide)

/-! ## Claim C9 — election lifecycle -/

/-- Finding by id commutes with mapping an id-preserving row transformation. -/
theorem find?_map_of_id (f : Election → Election) (hf : ∀ e, (f e).id = e.id)
    (l : List Election) (eid : String) :
    (l.map f).find? (fun e => e.id == eid) = (l.find? (fun e => e.id == eid)).map f := by
  induction l with
  | nil => rfl
  | cons e l ih =>
      simp only [List.map_cons, List.find?]
      rw [hf e]
      cases h : e.id == eid with
      | true => simp [h]
      | false => simp [h, ih]

/-- Lookup after `update_status`: the found row is the transformed one. -/
theorem get_by_id_update_status (db : DB) (eid eidT st : String) :
    ElectionRepository.get_by_id (ElectionRepository.update_status db eidT st) eid
      = (ElectionRepository.get_by_id db eid).map
          (fun e => if e.id == eidT then { e with status := st } else e) := by
  unfold ElectionRepository.get_by_id ElectionRepository.update_status
  exact find?_map_of_id _ (fun e => by cases h : e.id == eidT <;> simp [h]) _ _

/-- Lookup after `ElectionRepository.update`: the found row is the updated one. -/
theorem get_by_id_update (db : DB) (eid eidT : String) (data : ElectionUpdateData) :
    ElectionRepository.get_by_id (ElectionRepository.update db eidT data) eid
      = (ElectionRepository.get_by_id db eid).map
          (fun e => if e.id == eidT then
              { e with
                  title := data.title.getD e.title,
                  description := (if data.description.isSome then data.description
                                  else e.description),
                  start_time := data.start_time.getD e.start_time,
                  end_time := data.end_time.getD e.end_time }
            else e) := by
  unfold ElectionRepository.get_by_id ElectionRepository.update
  exact find?_map_of_id _ (fun e => by cases h : e.id == eidT <;> simp [h]) _ _

/-- Claim C9: election status moves only along draft → active → closed.
Activation succeeds exactly from draft with at least two candidates (with the
`InvalidState` 400 error otherwise, leaving the store unchanged), closing
succeeds exactly from active, and no election-service operation — activate,
close or attribute update — ever moves any election's status other than
draft → active (by activate) or active → closed (by close); in particular a
closed election never leaves closed and a draft election never jumps to
closed. -/
theorem c9_lifecycle :
    (∀ (db : DB) (eid : String) (e : Election),
      ElectionRepository.get_by_id db eid = some e →
      ((e.status = "draft" → 2 ≤ (CandidateRepository.get_by_election db eid).length →
          (ElectionService.activate_election db eid).1 = .ok { e with status := "active" }
          ∧ ElectionRepository.get_by_id (ElectionService.activate_election db eid).2 eid
              = some { e with status := "active" })
       ∧ (e.status = "draft" → (CandidateRepository.get_by_election db eid).length < 2 →
          (ElectionService.activate_election db eid).1
              = .error (.http 400 "Election must have at least 2 candidates to activate")
          ∧ (ElectionService.activate_election db eid).2 = db)
       ∧ (e.status ≠ "draft" →
          (ElectionService.activate_election db eid).1
              = .error (.http 400 "Can only activate elections in draft status")
          ∧ (ElectionService.activate_election db eid).2 = db)
       ∧ (e.status = "active" →
          (ElectionService.close_election db eid).1 = .ok { e with status := "closed" }
          ∧ ElectionRepository.get_by_id (ElectionService.close_election db eid).2 eid
              = some { e with status := "closed" })
       ∧ (e.status ≠ "active" →
          (ElectionService.close_election db eid).1
              = .error (.http 400 "Can only close active elections")
          ∧ (ElectionService.close_election db eid).2 = db)))
    ∧ (∀ (op : ElectionOp) (db : DB) (eid : String) (e e' : Election),
        ElectionRepository.get_by_id db eid = some e →
        ElectionRepository.get_by_id (op.apply db) eid = some e' →
        statusStep e.status e'.status) := by
  constructor
  · intro db eid e he
    have hef : db.elections.find? (fun x => x.id == eid) = some e := he
    have hid : (e.id == eid) = true := by simpa using List.find?_some hef
    have hideq : e.id = eid := by simpa using hid
    refine ⟨?_, ?_, ?_, ?_, ?_⟩
    · intro hdraft hlen
      have hact : ElectionService.activate_election db eid
          = (.ok { e with status := "active" },
             ElectionRepository.update_status db eid "active") := by
        simp [ElectionService.activate_election, he, hdraft, Nat.not_lt.mpr hlen]
      refine ⟨by rw [hact], ?_⟩
      rw [hact, get_by_id_update_status, he]
      simp [hideq]
    · intro hdraft hlen
      have hact : ElectionService.activate_election db eid
          = (.error (.http 400 "Election must have at least 2 candidates to activate"), db) := by
        simp [ElectionService.activate_election, he, hdraft, hlen]
      exact ⟨by rw [hact], by rw [hact]⟩
    · intro hnd
      have hact : ElectionService.activate_election db eid
          = (.error (.http 400 "Can only activate elections in draft status"), db) := by
        simp [ElectionService.activate_election, he, hnd]
      exact ⟨by rw [hact], by rw [hact]⟩
    · intro hactv
      have hcl : ElectionService.close_election db eid
          = (.ok { e with status := "closed" },
             ElectionRepository.update_status db eid "closed") := by
        simp [ElectionService.close_election, he, hactv]
      refine ⟨by rw [hcl], ?_⟩
      rw [hcl, get_by_id_update_status, he]
      simp [hideq]
    · intro hna
      have hcl : ElectionService.close_election db eid
          = (.error (.http 400 "Can only close active elections"), db) := by
        simp [ElectionService.close_election, he, hna]
      exact ⟨by rw [hcl], by rw [hcl]⟩
  · intro op db eid e e' he he'
    have hef : db.elections.find? (fun x => x.id == eid) = some e := he
    have hid : (e.id == eid) = true := by simpa using List.find?_some hef
    have hideq : e.id = eid := by simpa using hid
    cases op with
    | activate eidT =>
        cases heT : ElectionRepository.get_by_id db eidT with
        | none =>
            have happ : (ElectionOp.activate eidT).apply db = db := by
              simp [ElectionOp.apply, ElectionService.activate_election, heT]
            rw [happ, he] at he'
            injection he' with h
            subst h
            exact Or.inl rfl
        | some e0 =>
            by_cases hs : e0.status = "draft"
            · by_cases hlen : (CandidateRepository.get_by_election db eidT).length < 2
              · have happ : (ElectionOp.activate eidT).apply db = db := by
                  simp [ElectionOp.apply, ElectionService.activate_election, heT, hs, hlen]
                rw [happ, he] at he'
                injection he' with h
                subst h
                exact Or.inl rfl
              · have happ : (ElectionOp.activate eidT).apply db
                    = ElectionRepository.update_status db eidT "active" := by
                  simp [ElectionOp.apply, ElectionService.activate_election, heT, hs, hlen]
                rw [happ, get_by_id_update_status, he] at he'
                injection he' with h
                cases hban : e.id == eidT with
                | false =>
                    simp only [hban, Bool.false_eq_true, if_false, ite_false] at h
                    subst h
                    exact Or.inl rfl
                | true =>
                    simp only [hban, if_true, ite_true] at h
                    have hTeq : eid = eidT := by
                      have : e.id = eidT := by simpa using hban
                      rw [← hideq, this]
                    subst hTeq
                    rw [he] at heT
                    injection heT with h0
                    subst h0
                    exact Or.inr (Or.inl ⟨hs, by rw [← h]⟩)
            · have happ : (ElectionOp.activate eidT).apply db = db := by
                simp [ElectionOp.apply, ElectionService.activate_election, heT, hs]
              rw [happ, he] at he'
              injection he' with h
              subst h
              exact Or.inl rfl
    | close eidT =>
        cases heT : ElectionRepository.get_by_id db eidT with
        | none =>
            have happ : (ElectionOp.close eidT).apply db = db := by
              simp [ElectionOp.apply, ElectionService.close_election, heT]
            rw [happ, he] at he'
            injection he' with h
            subst h
            exact Or.inl rfl
        | some e0 =>
            by_cases hs : e0.status = "active"
            · have happ : (ElectionOp.close eidT).apply db
                  = ElectionRepository.update_status db eidT "closed" := by
                simp [ElectionOp.apply, ElectionService.close_election, heT, hs]
              rw [happ, get_by_id_update_status, he] at he'
              injection he' with h
              cases hban : e.id == eidT with
              | false =>
                  simp only [hban, Bool.false_eq_true, if_false, ite_false] at h
                  subst h
                  exact Or.inl rfl
              | true =>
                  simp only [hban, if_true, ite_true] at h
                  have hTeq : eid = eidT := by
                    have : e.id = eidT := by simpa using hban
                    rw [← hideq, this]
                  subst hTeq
                  rw [he] at heT
                  injection heT with h0
                  subst h0
                  exact Or.inr (Or.inr ⟨hs, by rw [← h]⟩)
            · have happ : (ElectionOp.close eidT).apply db = db := by
                simp [ElectionOp.apply, ElectionService.close_election, heT, hs]
              rw [happ, he] at he'
              injection he' with h
              subst h
              exact Or.inl rfl
    | update eidT data =>
        cases heT : ElectionRepository.get_by_id db eidT with
        | none =>
            have happ : (ElectionOp.update eidT data).apply db = db := by
              simp [ElectionOp.apply, ElectionService.update_election, heT]
            rw [happ, he] at he'
            injection he' with h
            subst h
            exact Or.inl rfl
        | some e0 =>
            by_cases hs : e0.status = "draft"
            · have happ : (ElectionOp.update eidT data).apply db
                  = ElectionRepository.update db eidT data := by
                simp [ElectionOp.apply, ElectionService.update_election, heT, hs]
              rw [happ, get_by_id_update, he] at he'
              injection he' with h
              cases hban : e.id == eidT with
              | false =>
                  simp only [hban, Bool.false_eq_true, if_false, ite_false] at h
                  subst h
                  exact Or.inl rfl
              | true =>
                  simp only [hban, if_true, ite_true] at h
                  exact Or.inl (by rw [← h])
            · have happ : (ElectionOp.update eidT data).apply db = db := by
                simp [ElectionOp.apply, ElectionService.update_election, heT, hs]
              rw [happ, he] at he'
              injection he' with h
              subst h
              exact Or.inl rfl

/-- A draft election with two candidates, for the C9 witness. -/
def electionC9 : Election :=
  { id := "e1", title := "Draft", description := none, start_time := 0, end_time := 10,
    status := "draft" }

/-- An active election in the same store. -/
def electionC9act : Election :=
  { id := "e2", title := "Live", description := none, start_time := 0, end_time := 10,
    status := "active" }

/-- First candidate of the draft election. -/
def candC9a : Candidate := { id := "c1", election_id := "e1", name := "A", created_at := 1 }

/-- Second candidate of the draft election. -/
def candC9b : Candidate := { id := "c2", election_id := "e1", name := "B", created_at := 2 }

/-- Concrete store for the C9 witness. -/
def dbC9 : DB :=
  { users := [], elections := [electionC9, electionC9act], candidates := [candC9a, candC9b],
    votes := [] }

/-- Witness for C9: activating the two-candidate draft election succeeds,
closing the active one succeeds, closing the draft one is rejected, and the
one-step status change of the activation is a legal lifecycle step. -/
theorem c9_lifecycle_witness :
    (ElectionService.activate_election dbC9 "e1").1
        = .ok { electionC9 with status := "active" }
    ∧ (ElectionService.close_election dbC9 "e2").1
        = .ok { electionC9act with status := "closed" }
    ∧ (ElectionService.close_election dbC9 "e1").1
        = .error (.http 400 "Can only close active elections")
    ∧ statusStep electionC9.status ({ electionC9 with status := "active" } : Election).status := by
  exact ⟨((c9_lifecycle.1 dbC9 "e1" electionC9 rfl).1 rfl (by decide)).1,
    ((c9_lifecycle.1 dbC9 "e2" electionC9act rfl).2.2.2.1 rfl).1,
    ((c9_lifecycle.1 dbC9 "e1" electionC9 rfl).2.2.2.2 (by decide)).1,
    c9_lifecycle.2 (.activate "e1") dbC9 "e1" electionC9
      { electionC9 with status := "active" } rfl (by rfl)⟩

/-! ## Claim C10 — unknown user id fallback -/

/-- Claim C10: when no user row matches `user_id`, neither `cast_vote` nor
`check_vote_status` fails on the missing user — both select the raw `user_id`
string as the voter identifier, and the whole call behaves exactly as for a
known user carrying that id and no employee id. -/
theorem c10_missing_user :
    ∀ (db : DB) (now : Int) (user_id election_id candidate_id : String),
      UserRepository.get_by_id db user_id = none →
      VoteService.castIdentifier db user_id = user_id
      ∧ VoteService.statusIdentifier db user_id = user_id
      ∧ (VoteService.cast_vote db now user_id election_id candidate_id).1
          = (VoteService.cast_vote
              { db with users := db.users ++ [{ id := user_id, emp_id := none }] }
              now user_id election_id candidate_id).1
      ∧ (VoteService.cast_vote db now user_id election_id candidate_id).2.votes
          = (VoteService.cast_vote
              { db with users := db.users ++ [{ id := user_id, emp_id := none }] }
              now user_id election_id candidate_id).2.votes
      ∧ VoteService.check_vote_status db user_id election_id
          = VoteService.check_vote_status
              { db with users := db.users ++ [{ id := user_id, emp_id := none }] }
              user_id election_id := by
  intro db now user_id election_id candidate_id hu
  obtain ⟨us, es, cs, vs⟩ := db
  have h2 : UserRepository.get_by_id
      { users := us ++ [{ id := user_id, emp_id := none }], elections := es,
        candidates := cs, votes := vs } user_id = some { id := user_id, emp_id := none } := by
    unfold UserRepository.get_by_id at hu ⊢
    simp only at hu ⊢
    induction us with
    | nil => simp
    | cons u us ih =>
        simp only [List.find?] at hu ⊢
        cases h : u.id == user_id with
        | true => rw [h] at hu; exact Option.noConfusion hu
        | false => rw [h] at hu; exact ih hu
  have h1 : VoteService.castIdentifier ⟨us, es, cs, vs⟩ user_id = user_id := by
    simp [VoteService.castIdentifier, hu]
  have h1s : VoteService.statusIdentifier ⟨us, es, cs, vs⟩ user_id = user_id := by
    simp [VoteService.statusIdentifier, hu]
  have h3 : VoteService.castIdentifier
      { users := us ++ [{ id := user_id, emp_id := none }], elections := es,
        candidates := cs, votes := vs } user_id = user_id := by
    simp [VoteService.castIdentifier, h2]
  have h3s : VoteService.statusIdentifier
      { users := us ++ [{ id := user_id, emp_id := none }], elections := es,
        candidates := cs, votes := vs } user_id = user_id := by
    simp [VoteService.statusIdentifier, h2]
  refine ⟨h1, h1s, ?_, ?_, ?_⟩ <;>
    simp only [VoteService.cast_vote, VoteService.check_vote_status,
      ElectionRepository.get_by_id, CandidateRepository.get_by_id,
      VoteRepository.check_duplicate, VoteRepository.cast_vote, h1, h1s, h3, h3s] <;>
    repeat' split <;>
    repeat'
      first
        | rfl
        | (rename_i heq
           cases heq)

/-- An active election for the C10 witness. -/
def electionC10 : Election :=
  { id := "e1", title := "Open", description := none, start_time := 0, end_time := 10,
    status := "active" }

/-- Candidate of `electionC10`. -/
def candC10 : Candidate := { id := "c1", election_id := "e1", name := "A", created_at := 1 }

/-- Concrete store for the C10 witness: the user table is empty, so no user id
matches. -/
def dbC10 : DB :=
  { users := [], elections := [electionC10], candidates := [candC10], votes := [] }

/-- Witness for C10 at the unknown user id `"ghost"`. -/
theorem c10_missing_user_witness :
    VoteService.castIdentifier dbC10 "ghost" = "ghost"
    ∧ (VoteService.cast_vote dbC10 5 "ghost" "e1" "c1").1
        = (VoteService.cast_vote
            { dbC10 with users := dbC10.users ++ [{ id := "ghost", emp_id := none }] }
            5 "ghost" "e1" "c1").1 := by
  have h := c10_missing_user dbC10 5 "ghost" "e1" "c1" rfl
  exact ⟨h.1, h.2.2.1⟩
